import Mathlib

/-!
Verification of the state-transition and storage core of the espresso
sequencer node (src/sequencer/src/lib.rs), as a shallow embedding in Lean.

Machine integers of the source (u64, U256) are modelled as `Nat`; the
operations verified here never wrap, so no explicit modulus is needed.
Fallible Rust functions returning `Result`/`anyhow::Result` are modelled
with `Except`.  Async functions are modelled as pure state-passing
functions: an adapter call receives the backend state guarded by the
`RwLock` and returns the result together with the successor state and the
list of backend operations it invoked.
-/

namespace Sequencer

/-- The surfaced error type, embedding `enum Error` of
src/sequencer/src/lib.rs (lines 235-258).  `MerkleTreeError` carries a
descriptive cause string; the remaining variants carry no payload. -/
inductive Error where
  | IncorrectParent
  | IncorrectView
  | GenesisWrongSize
  | MissingGenesis
  | UnexpectedGenesis
  | MerkleTreeError (error : String)
  | BlockBuilding
  deriving DecidableEq, Repr

/-! ## Storage adapter

`impl<P: SequencerPersistence> Storage<SeqTypes> for Arc<RwLock<P>>`
(src/sequencer/src/lib.rs lines 124-153).  The wrapped persistence backend
`P` is an external collaborator; it is modelled abstractly as a record of
state-passing operations over an abstract backend state `σ`.  An adapter
call is modelled as a function from the guarded backend state to the
operation result, the successor backend state, and the trace of backend
operations invoked during the call. -/

/-- One invocation of a backend operation, recorded in the adapter's
call trace. -/
inductive BackendCall (VidP DaP View Action : Type) where
  | append_vid (p : VidP)
  | append_da (p : DaP)
  | record_action (v : View) (a : Action)
  deriving DecidableEq, Repr

/-- The persistence backend trait (`SequencerPersistence`), abstract over
its state `σ`, proposal/view/action payload types, and error type `E`:
each operation maps the current durable state and its arguments to a
result and a successor state. -/
structure SequencerPersistence (σ VidP DaP View Action E : Type) where
  append_vid : σ → VidP → Except E Unit × σ
  append_da : σ → DaP → Except E Unit × σ
  record_action : σ → View → Action → Except E Unit × σ

namespace StorageAdapter

variable {σ VidP DaP View Action QC Leaves Views E : Type}

/-- `Storage::append_vid` for `Arc<RwLock<P>>`: acquires the write guard,
delegates to the backend's `append_vid` with the same proposal, and
returns the backend's result.  The trace records the single backend call
made. -/
def append_vid (P : SequencerPersistence σ VidP DaP View Action E) (s : σ)
    (p : VidP) : Except E Unit × σ × List (BackendCall VidP DaP View Action) :=
  match P.append_vid s p with
  | (r, s2) => (r, s2, [BackendCall.append_vid p])

/-- `Storage::append_da` for `Arc<RwLock<P>>`: delegates to the backend's
`append_da` with the same proposal under the write guard. -/
def append_da (P : SequencerPersistence σ VidP DaP View Action E) (s : σ)
    (p : DaP) : Except E Unit × σ × List (BackendCall VidP DaP View Action) :=
  match P.append_da s p with
  | (r, s2) => (r, s2, [BackendCall.append_da p])

/-- `Storage::record_action` for `Arc<RwLock<P>>`: delegates to the
backend's `record_action` with the same view and action under the write
guard. -/
def record_action (P : SequencerPersistence σ VidP DaP View Action E)
    (s : σ) (v : View) (a : Action) :
    Except E Unit × σ × List (BackendCall VidP DaP View Action) :=
  match P.record_action s v a with
  | (r, s2) => (r, s2, [BackendCall.record_action v a])

/-- `Storage::update_high_qc` for `Arc<RwLock<P>>` (lines 142-144): the
body is `Ok(())`; the quorum certificate argument is ignored and no
backend operation is invoked. -/
def update_high_qc (s : σ) (_high_qc : QC) :
    Except E Unit × σ × List (BackendCall VidP DaP View Action) :=
  (Except.ok (), s, [])

/-- `Storage::update_undecided_state` for `Arc<RwLock<P>>` (lines
146-152): the body is `Ok(())`; both arguments are ignored and no backend
operation is invoked. -/
def update_undecided_state (s : σ) (_leaves : Leaves) (_state : Views) :
    Except E Unit × σ × List (BackendCall VidP DaP View Action) :=
  (Except.ok (), s, [])

end StorageAdapter

end Sequencer

namespace Sequencer

/-! ## Chain config, validated state, node state -/

/-- `L1BlockInfo { number: u64, timestamp: u256, hash: digest }`; ordered
by `number`.  The digest is modelled as a `Nat`. -/
structure L1BlockInfo where
  number : Nat
  timestamp : Nat
  hash : Nat
  deriving DecidableEq, Repr

/-- Static per-deployment chain parameters (`ChainConfig`, from the
crate's private `chain_config` module; the spec lists chain id and fee
parameters). -/
structure ChainConfig where
  chain_id : Nat
  max_block_size : Nat
  base_fee : Nat
  deriving DecidableEq, Repr

/-- Fee account addresses (Ethereum addresses, u160). -/
abbrev FeeAccount := Nat

/-- Account balances (U256 values). -/
abbrev Balance := Nat

/-- `U256::max_value()`, the maximal sentinel balance. -/
def U256.max_value : Nat := 2 ^ 256 - 1

/-- The validated state: the Merkleized fee ledger (represented by the
finite map of materialized leaves) and the chain config. -/
structure ValidatedState where
  fee_merkle_tree : FeeAccount → Option Balance
  chain_config : ChainConfig

/-- `ValidatedState::default()`: an empty fee ledger with the default
chain config. -/
def ValidatedState.default : ValidatedState :=
  { fee_merkle_tree := fun _ => none, chain_config := ⟨0, 0, 0⟩ }

/-- Modelled from the spec: `ValidatedState::prefund_account` of the
missing `state` module credits the given account with the given balance
in the fee ledger. -/
def ValidatedState.prefund_account (st : ValidatedState) (a : FeeAccount)
    (b : Balance) : ValidatedState :=
  { st with fee_merkle_tree :=
      fun x => if x = a then some b else st.fee_merkle_tree x }

/-- The genesis-state construction step of `init_node`
(src/sequencer/src/lib.rs lines 435-439): start from
`ValidatedState::default()` and prefund each listed account with
`U256::max_value()`. -/
def initGenesisState (prefunded : List FeeAccount) : ValidatedState :=
  prefunded.foldl
    (fun st a => st.prefund_account a U256.max_value) ValidatedState.default

/-- Per-node, process-lifetime configuration (`NodeState`,
src/sequencer/src/lib.rs lines 155-163).  The L1 client and the catchup
source are external collaborators, held abstractly. -/
structure NodeState (L1C Catchup : Type) where
  node_id : Nat
  chain_config : ChainConfig
  l1_client : L1C
  peers : Catchup
  genesis_state : ValidatedState
  l1_genesis : Option L1BlockInfo

/-- `NodeState::new` (lines 166-180): stores the four arguments and
initializes `genesis_state` to `Default::default()` and `l1_genesis` to
`None`. -/
def NodeState.new {L1C Catchup : Type} (node_id : Nat)
    (chain_config : ChainConfig) (l1_client : L1C) (catchup : Catchup) :
    NodeState L1C Catchup :=
  { node_id := node_id, chain_config := chain_config,
    l1_client := l1_client, peers := catchup,
    genesis_state := ValidatedState.default, l1_genesis := none }

/-- `NodeState::with_l1` (lines 192-195): replaces the `l1_client`
field. -/
def NodeState.with_l1 {L1C Catchup : Type} (n : NodeState L1C Catchup)
    (l1_client : L1C) : NodeState L1C Catchup :=
  { n with l1_client := l1_client }

/-- `NodeState::with_genesis` (lines 197-200): replaces the
`genesis_state` field. -/
def NodeState.with_genesis {L1C Catchup : Type} (n : NodeState L1C Catchup)
    (state : ValidatedState) : NodeState L1C Catchup :=
  { n with genesis_state := state }

/-! ## init_node startup steps

The config-resolution and L1-genesis steps of `init_node`
(src/sequencer/src/lib.rs lines 330-360 and 441-445).  The persistence
backend's `load_config`/`save_config`, the orchestrator fetch
(`NetworkConfig::get_complete_config`), and the L1 client's `get_block`
are external effects, modelled as `Except` values supplied by an
environment; the events the step performs are returned as a trace. -/

/-- The external effects `init_node`'s config resolution invokes. -/
structure ConfigEnv (Cfg E : Type) where
  load_config : Except E (Option Cfg)
  fetch_config : Except E Cfg
  save_config : Cfg → Except E Unit

/-- Observable events of the config-resolution step. -/
inductive ConfigEvent (Cfg : Type) where
  | orchestrator_fetch
  | save (c : Cfg)
  deriving DecidableEq, Repr

/-- The config-resolution step of `init_node` (lines 330-360): load the
stored config if there is one (performing no fetch and no save);
otherwise fetch the complete config from the orchestrator, save it, and
mark that the node must wait for the orchestrator.  Returns the config
and the `wait_for_orchestrator` flag, plus the event trace. -/
def load_or_fetch_config {Cfg E : Type} (env : ConfigEnv Cfg E) :
    Except E (Cfg × Bool) × List (ConfigEvent Cfg) :=
  match env.load_config with
  | Except.error e => (Except.error e, [])
  | Except.ok (some config) => (Except.ok (config, false), [])
  | Except.ok none =>
    match env.fetch_config with
    | Except.error e => (Except.error e, [ConfigEvent.orchestrator_fetch])
    | Except.ok config =>
      match env.save_config config with
      | Except.error e =>
          (Except.error e,
            [ConfigEvent.orchestrator_fetch, ConfigEvent.save config])
      | Except.ok _ =>
          (Except.ok (config, true),
            [ConfigEvent.orchestrator_fetch, ConfigEvent.save config])

/-- The L1-genesis step of `init_node` (lines 441-445): when a finalized
block number is supplied, fetch its block info from the L1 client,
propagating any error; otherwise perform no fetch and leave `l1_genesis`
as `None`.  The boolean records whether a fetch occurred. -/
def resolve_l1_genesis {E : Type} (finalized_block : Option Nat)
    (get_block : Nat → Except E L1BlockInfo) :
    Except E (Option L1BlockInfo) × Bool :=
  match finalized_block with
  | some b =>
    match get_block b with
    | Except.error e => (Except.error e, true)
    | Except.ok info => (Except.ok (some info), true)
  | none => (Except.ok none, false)

/-! ## Headers and validation

The `Header` type and its `validate` function live in the crate's
`header` module (re-exported by src/sequencer/src/lib.rs line 80), whose
source is not part of the examined material; only the invariants the
specification states for it, the error enum, and the integration test
`test_header_invariants` (lib.rs lines 798-872) are available.  The
definitions below are therefore modelled from the spec. -/

/-- A sequencer transaction: a namespace id and opaque payload bytes. -/
structure Transaction where
  ns : Nat
  payload : List Nat
  deriving DecidableEq, Repr

/-- The sequencer block header, with the fields named by the spec's data
model (the namespace table is represented by its commitment digest). -/
structure Header where
  height : Nat
  timestamp : Nat
  l1_head : Nat
  l1_finalized : Option L1BlockInfo
  payload_commitment : Nat
  builder_commitment : Nat
  ns_table : Nat
  fee_merkle_root : Nat
  chain_config_commitment : Nat
  deriving DecidableEq, Repr

/-- `candidate.l1_finalized >= parent.l1_finalized` compared when both are
present (`L1BlockInfo` is ordered by `number`); when either side is
absent there is nothing to compare. -/
def l1FinalizedGe (child parent : Option L1BlockInfo) : Bool :=
  match parent, child with
  | some pf, some hf => decide (pf.number ≤ hf.number)
  | _, _ => true

/-- Modelled from the spec: `validate(candidate, parent)` of the missing
`header` module, extended with the candidate block's transaction list,
which the genesis-specific checks inspect.  If the candidate's height is
0 it short-circuits into the genesis check: a block with zero or more
than one transaction is rejected with `GenesisWrongSize`, then a block
whose single transaction is not the designated genesis transaction `gtx`
is rejected with `MissingGenesis`.  Otherwise the genesis transaction
must not appear (`UnexpectedGenesis`), and each monotonicity invariant of
the spec's header invariant set is checked in turn, a violation of the
height/ordering invariants surfacing as `IncorrectView`.  The post-state
commitment check (`fee_merkle_root`) needs the parent state, which is not
in `validate`'s signature, and is not modelled here. -/
def validate (gtx : Transaction) (candidate parent : Header)
    (txns : List Transaction) : Except Error Unit :=
  if candidate.height = 0 then
    if txns.length ≠ 1 then Except.error Error.GenesisWrongSize
    else if ¬ gtx ∈ txns then Except.error Error.MissingGenesis
    else Except.ok ()
  else
    if gtx ∈ txns then Except.error Error.UnexpectedGenesis
    else if candidate.height ≠ parent.height + 1 then
      Except.error Error.IncorrectView
    else if candidate.timestamp < parent.timestamp then
      Except.error Error.IncorrectView
    else if candidate.l1_head < parent.l1_head then
      Except.error Error.IncorrectView
    else if ¬ l1FinalizedGe candidate.l1_finalized parent.l1_finalized then
      Except.error Error.IncorrectView
    else Except.ok ()

/-- `true` when `validate` accepts the candidate against the parent. -/
def validateOk (gtx : Transaction) (candidate parent : Header)
    (txns : List Transaction) : Bool :=
  match validate gtx candidate parent txns with
  | Except.ok _ => true
  | Except.error _ => false

/-- A chain of headers (each paired with its block's transactions) is
accepted when every header validates against its predecessor. -/
def headerChainAccepted (gtx : Transaction) :
    List (Header × List Transaction) → Bool
  | [] => true
  | [_] => true
  | (p, _) :: (h, htxns) :: rest =>
      validateOk gtx h p htxns && headerChainAccepted gtx ((h, htxns) :: rest)

/-- The monotonicity invariants between a non-genesis header and its
parent. -/
def headerInvariants (h p : Header) : Prop :=
  h.height = p.height + 1 ∧ p.timestamp ≤ h.timestamp ∧
    p.l1_head ≤ h.l1_head ∧
    ∀ pf hf, p.l1_finalized = some pf → h.l1_finalized = some hf →
      pf.number ≤ hf.number

/-- C2: for every persistence backend (over any state and payload types)
and every input, the storage adapter's `update_high_qc` and
`update_undecided_state` return `Ok(())`, leave the wrapped backend state
unchanged, and invoke no backend operation. -/
theorem storage_update_ops_are_noops
    {σ VidP DaP View Action QC Leaves Views E : Type}
    (s : σ) (qc : QC) (leaves : Leaves) (views : Views) :
    StorageAdapter.update_high_qc s qc
      = ((Except.ok () : Except E Unit), s,
          ([] : List (BackendCall VidP DaP View Action))) ∧
    StorageAdapter.update_undecided_state s leaves views
      = ((Except.ok () : Except E Unit), s,
          ([] : List (BackendCall VidP DaP View Action))) :=
  ⟨rfl, rfl⟩

/-- C5: for every persistence backend, the storage adapter's `append_vid`,
`append_da`, and `record_action` each delegate to the identically-named
backend operation with the same arguments: the result returned is exactly
the backend's result, the successor backend state is exactly the one the
backend produced, and the call trace consists of that single backend
call. -/
theorem storage_append_ops_delegate
    {σ VidP DaP View Action E : Type}
    (P : SequencerPersistence σ VidP DaP View Action E)
    (s : σ) (vp : VidP) (dp : DaP) (v : View) (a : Action) :
    StorageAdapter.append_vid P s vp
      = ((P.append_vid s vp).1, (P.append_vid s vp).2,
          [BackendCall.append_vid vp]) ∧
    StorageAdapter.append_da P s dp
      = ((P.append_da s dp).1, (P.append_da s dp).2,
          [BackendCall.append_da dp]) ∧
    StorageAdapter.record_action P s v a
      = ((P.record_action s v a).1, (P.record_action s v a).2,
          [BackendCall.record_action v a]) :=
  ⟨rfl, rfl, rfl⟩

theorem validate_ok_invariants (gtx : Transaction) (h p : Header)
    (txns : List Transaction) (hok : validateOk gtx h p txns = true)
    (hng : h.height ≠ 0) : headerInvariants h p := by
  unfold validateOk validate at hok
  rw [if_neg hng] at hok
  by_cases hmem : gtx ∈ txns
  · rw [if_pos hmem] at hok
    exact absurd hok (by simp)
  rw [if_neg hmem] at hok
  by_cases hh : h.height ≠ p.height + 1
  · rw [if_pos hh] at hok
    exact absurd hok (by simp)
  rw [if_neg hh] at hok
  by_cases ht : h.timestamp < p.timestamp
  · rw [if_pos ht] at hok
    exact absurd hok (by simp)
  rw [if_neg ht] at hok
  by_cases hl : h.l1_head < p.l1_head
  · rw [if_pos hl] at hok
    exact absurd hok (by simp)
  rw [if_neg hl] at hok
  by_cases hf : ¬ l1FinalizedGe h.l1_finalized p.l1_finalized = true
  · rw [if_pos hf] at hok
    exact absurd hok (by simp)
  refine ⟨by omega, by omega, by omega, ?_⟩
  intro pf hfin hpf hhf
  simp only [not_not] at hf
  unfold l1FinalizedGe at hf
  rw [hpf, hhf] at hf
  exact of_decide_eq_true hf

/-- C1: in an accepted header chain, every non-genesis header `h` with
parent `p` satisfies `h.height = p.height + 1`, `h.timestamp ≥
p.timestamp`, `h.l1_head ≥ p.l1_head`, and, when both are present,
`h.l1_finalized ≥ p.l1_finalized` (ordered by block number). -/
theorem accepted_chain_header_monotonic (gtx : Transaction)
    (chain : List (Header × List Transaction))
    (hacc : headerChainAccepted gtx chain = true)
    (i : Nat) (hi : i + 1 < chain.length)
    (hng : (chain.get ⟨i + 1, hi⟩).1.height ≠ 0) :
    headerInvariants (chain.get ⟨i + 1, hi⟩).1
      (chain.get ⟨i, Nat.lt_of_succ_lt hi⟩).1 := by
  induction chain generalizing i with
  | nil => exact absurd hi (by simp)
  | cons ph rest ih =>
    cases rest with
    | nil =>
      simp only [List.length_singleton] at hi
      omega
    | cons hh rest2 =>
      rw [headerChainAccepted] at hacc
      have h2 := Bool.and_elim_right hacc
      have h1 := Bool.and_elim_left hacc
      cases i with
      | zero =>
        simp only [List.get] at hng ⊢
        exact validate_ok_invariants gtx hh.1 ph.1 hh.2 h1 hng
      | succ j =>
        have hj : j + 1 < (hh :: rest2).length := by
          simpa using Nat.lt_of_succ_lt_succ hi
        have hng2 : ((hh :: rest2).get ⟨j + 1, hj⟩).1.height ≠ 0 := by
          simpa [List.get] using hng
        simpa [List.get] using ih h2 j hj hng2

/-- C1 witness: a concrete two-header chain that is accepted, whose second
header is non-genesis and satisfies the invariants. -/
theorem accepted_chain_header_monotonic_witness :
    headerInvariants
      (([(({ height := 0, timestamp := 5, l1_head := 3,
              l1_finalized := some ⟨2, 0, 0⟩, payload_commitment := 0,
              builder_commitment := 0, ns_table := 0, fee_merkle_root := 0,
              chain_config_commitment := 0 } : Header), [⟨0, []⟩]),
          (({ height := 1, timestamp := 7, l1_head := 4,
              l1_finalized := some ⟨6, 0, 0⟩, payload_commitment := 0,
              builder_commitment := 0, ns_table := 0, fee_merkle_root := 0,
              chain_config_commitment := 0 } : Header), [⟨1, [2]⟩])] :
          List (Header × List Transaction)).get ⟨1, by decide⟩).1
      (([(({ height := 0, timestamp := 5, l1_head := 3,
              l1_finalized := some ⟨2, 0, 0⟩, payload_commitment := 0,
              builder_commitment := 0, ns_table := 0, fee_merkle_root := 0,
              chain_config_commitment := 0 } : Header), [⟨0, []⟩]),
          (({ height := 1, timestamp := 7, l1_head := 4,
              l1_finalized := some ⟨6, 0, 0⟩, payload_commitment := 0,
              builder_commitment := 0, ns_table := 0, fee_merkle_root := 0,
              chain_config_commitment := 0 } : Header), [⟨1, [2]⟩])] :
          List (Header × List Transaction)).get ⟨0, by decide⟩).1 :=
  accepted_chain_header_monotonic ⟨0, []⟩ _ (by decide) 0 (by decide)
    (by decide)

/-- C3: header validation rejects a height-0 block with zero or more than
one transaction with `GenesisWrongSize`; rejects the designated genesis
transaction appearing in any block at height > 0 with
`UnexpectedGenesis`; and rejects a height-0 block of the right size that
lacks the genesis transaction with `MissingGenesis`. -/
theorem validate_genesis_cases (gtx : Transaction) (h p : Header)
    (txns : List Transaction) :
    (h.height = 0 → txns.length ≠ 1 →
      validate gtx h p txns = Except.error Error.GenesisWrongSize) ∧
    (h.height ≠ 0 → gtx ∈ txns →
      validate gtx h p txns = Except.error Error.UnexpectedGenesis) ∧
    (h.height = 0 → txns.length = 1 → ¬ gtx ∈ txns →
      validate gtx h p txns = Except.error Error.MissingGenesis) := by
  refine ⟨?_, ?_, ?_⟩
  · intro h0 hlen
    unfold validate
    rw [if_pos h0, if_pos hlen]
  · intro h0 hmem
    unfold validate
    rw [if_neg h0, if_pos hmem]
  · intro h0 hlen hmem
    unfold validate
    rw [if_pos h0, if_neg (by omega), if_pos hmem]

/-- C3 witness: concrete evaluations of the three rejection cases. -/
theorem validate_genesis_cases_witness :
    validate ⟨0, []⟩
        { height := 0, timestamp := 0, l1_head := 0, l1_finalized := none,
          payload_commitment := 0, builder_commitment := 0, ns_table := 0,
          fee_merkle_root := 0, chain_config_commitment := 0 }
        { height := 0, timestamp := 0, l1_head := 0, l1_finalized := none,
          payload_commitment := 0, builder_commitment := 0, ns_table := 0,
          fee_merkle_root := 0, chain_config_commitment := 0 }
        [] = Except.error Error.GenesisWrongSize ∧
    validate ⟨0, []⟩
        { height := 2, timestamp := 0, l1_head := 0, l1_finalized := none,
          payload_commitment := 0, builder_commitment := 0, ns_table := 0,
          fee_merkle_root := 0, chain_config_commitment := 0 }
        { height := 1, timestamp := 0, l1_head := 0, l1_finalized := none,
          payload_commitment := 0, builder_commitment := 0, ns_table := 0,
          fee_merkle_root := 0, chain_config_commitment := 0 }
        [⟨0, []⟩] = Except.error Error.UnexpectedGenesis ∧
    validate ⟨0, []⟩
        { height := 0, timestamp := 0, l1_head := 0, l1_finalized := none,
          payload_commitment := 0, builder_commitment := 0, ns_table := 0,
          fee_merkle_root := 0, chain_config_commitment := 0 }
        { height := 0, timestamp := 0, l1_head := 0, l1_finalized := none,
          payload_commitment := 0, builder_commitment := 0, ns_table := 0,
          fee_merkle_root := 0, chain_config_commitment := 0 }
        [⟨1, []⟩] = Except.error Error.MissingGenesis :=
  ⟨(validate_genesis_cases _ _ _ _).1 (by decide) (by decide),
    (validate_genesis_cases _ _ _ _).2.1 (by decide) (by decide),
    (validate_genesis_cases _ _ _ _).2.2 (by decide) (by decide) (by decide)⟩

/-- C7: the surfaced error type exposes a distinct variant for each of the
seven listed errors; `MerkleTreeError` carries a cause string (and is
determined by it), the others carry no payload (every `Error` value is one
of the six bare variants or `MerkleTreeError` applied to some string, and
the bare variants plus any `MerkleTreeError` are pairwise distinct). -/
theorem error_variants_distinct :
    (∀ e : Error, e = Error.IncorrectParent ∨ e = Error.IncorrectView ∨
      e = Error.GenesisWrongSize ∨ e = Error.MissingGenesis ∨
      e = Error.UnexpectedGenesis ∨ (∃ s, e = Error.MerkleTreeError s) ∨
      e = Error.BlockBuilding) ∧
    (∀ s t : String, Error.MerkleTreeError s = Error.MerkleTreeError t ↔ s = t) ∧
    List.Pairwise (fun a b => a ≠ b)
      [Error.IncorrectParent, Error.IncorrectView, Error.GenesisWrongSize,
        Error.MissingGenesis, Error.UnexpectedGenesis, Error.BlockBuilding] ∧
    (∀ s : String,
      ¬ Error.MerkleTreeError s ∈
        [Error.IncorrectParent, Error.IncorrectView, Error.GenesisWrongSize,
          Error.MissingGenesis, Error.UnexpectedGenesis, Error.BlockBuilding]) := by
  refine ⟨?_, ?_, ?_, ?_⟩
  · intro e
    cases e with
    | IncorrectParent => exact Or.inl rfl
    | IncorrectView => exact Or.inr (Or.inl rfl)
    | GenesisWrongSize => exact Or.inr (Or.inr (Or.inl rfl))
    | MissingGenesis => exact Or.inr (Or.inr (Or.inr (Or.inl rfl)))
    | UnexpectedGenesis => exact Or.inr (Or.inr (Or.inr (Or.inr (Or.inl rfl))))
    | MerkleTreeError s =>
        exact Or.inr (Or.inr (Or.inr (Or.inr (Or.inr (Or.inl ⟨s, rfl⟩)))))
    | BlockBuilding =>
        exact Or.inr (Or.inr (Or.inr (Or.inr (Or.inr (Or.inr rfl)))))
  · intro s t
    constructor
    · intro h
      injection h
    · intro h
      rw [h]
  · simp
  · intro s
    simp

theorem prefund_fold_balance (l : List FeeAccount) (st : ValidatedState)
    (a : FeeAccount) :
    (l.foldl (fun s x =>
        s.prefund_account x U256.max_value) st).fee_merkle_tree a
      = if a ∈ l then some U256.max_value else st.fee_merkle_tree a := by
  induction l generalizing st with
  | nil => simp
  | cons x xs ih =>
    rw [List.foldl_cons, ih]
    by_cases hmem : a ∈ xs
    · simp [hmem]
    · by_cases hax : a = x
      · subst hax
        simp [hmem, ValidatedState.prefund_account]
      · simp [hmem, hax, ValidatedState.prefund_account]

/-- C8: the genesis state built by `init_node` credits each listed
prefunded account with the maximal sentinel balance `U256::max_value()`,
and accounts not listed carry no prefunded balance. -/
theorem init_genesis_state_prefunds (prefunded : List FeeAccount)
    (a : FeeAccount) :
    (a ∈ prefunded →
      (initGenesisState prefunded).fee_merkle_tree a = some U256.max_value) ∧
    (¬ a ∈ prefunded →
      (initGenesisState prefunded).fee_merkle_tree a = none) := by
  unfold initGenesisState
  rw [prefund_fold_balance]
  constructor
  · intro hmem
    rw [if_pos hmem]
  · intro hmem
    rw [if_neg hmem]
    rfl

/-- C8 witness: with prefunded list `[7]`, account 7 holds the sentinel
balance and account 8 holds nothing. -/
theorem init_genesis_state_prefunds_witness :
    (initGenesisState [7]).fee_merkle_tree 7 = some U256.max_value ∧
    (initGenesisState [7]).fee_merkle_tree 8 = none :=
  ⟨(init_genesis_state_prefunds [7] 7).1 (by decide),
    (init_genesis_state_prefunds [7] 8).2 (by decide)⟩

/-- C9: `NodeState::new` initializes `genesis_state` to the default
`ValidatedState` and `l1_genesis` to `None` (storing its four arguments
in the corresponding fields), and the builder methods `with_l1` and
`with_genesis` replace only the `l1_client` (respectively
`genesis_state`) field, leaving every other field unchanged. -/
theorem nodestate_new_and_builders {L1C Catchup : Type}
    (node_id : Nat) (cc : ChainConfig) (l1 : L1C) (catchup : Catchup)
    (n : NodeState L1C Catchup) (l1b : L1C) (st : ValidatedState) :
    (NodeState.new node_id cc l1 catchup).genesis_state
        = ValidatedState.default ∧
    (NodeState.new node_id cc l1 catchup).l1_genesis = none ∧
    (NodeState.new node_id cc l1 catchup).node_id = node_id ∧
    (NodeState.new node_id cc l1 catchup).chain_config = cc ∧
    (NodeState.new node_id cc l1 catchup).l1_client = l1 ∧
    (NodeState.new node_id cc l1 catchup).peers = catchup ∧
    (n.with_l1 l1b).l1_client = l1b ∧
    (n.with_l1 l1b).node_id = n.node_id ∧
    (n.with_l1 l1b).chain_config = n.chain_config ∧
    (n.with_l1 l1b).peers = n.peers ∧
    (n.with_l1 l1b).genesis_state = n.genesis_state ∧
    (n.with_l1 l1b).l1_genesis = n.l1_genesis ∧
    (n.with_genesis st).genesis_state = st ∧
    (n.with_genesis st).node_id = n.node_id ∧
    (n.with_genesis st).chain_config = n.chain_config ∧
    (n.with_genesis st).l1_client = n.l1_client ∧
    (n.with_genesis st).peers = n.peers ∧
    (n.with_genesis st).l1_genesis = n.l1_genesis :=
  ⟨rfl, rfl, rfl, rfl, rfl, rfl, rfl, rfl, rfl, rfl, rfl, rfl, rfl, rfl,
    rfl, rfl, rfl, rfl⟩

/-- C6: when the persistence backend has a stored config, `init_node`
uses it, performing no orchestrator fetch and no save; when it has none,
the config is fetched from the orchestrator exactly once and saved before
initialization proceeds, and that single fetched config is the one
returned. -/
theorem init_node_config_resolution {Cfg E : Type} (env : ConfigEnv Cfg E) :
    (∀ c, env.load_config = Except.ok (some c) →
      load_or_fetch_config env = (Except.ok (c, false), [])) ∧
    (env.load_config = Except.ok none →
      ∀ c, env.fetch_config = Except.ok c → env.save_config c = Except.ok () →
        load_or_fetch_config env
          = (Except.ok (c, true),
              [ConfigEvent.orchestrator_fetch, ConfigEvent.save c])) := by
  constructor
  · intro c hload
    unfold load_or_fetch_config
    rw [hload]
  · intro hload c hfetch hsave
    simp [load_or_fetch_config, hload, hfetch, hsave]

/-- C6 witness: concrete environments for the stored-config path and the
fetch-and-save path. -/
theorem init_node_config_resolution_witness :
    load_or_fetch_config
        (⟨Except.ok (some 5), Except.error (), fun _ => Except.error ()⟩ :
          ConfigEnv Nat Unit)
      = (Except.ok (5, false), []) ∧
    load_or_fetch_config
        (⟨Except.ok none, Except.ok 9, fun _ => Except.ok ()⟩ :
          ConfigEnv Nat Unit)
      = (Except.ok (9, true),
          [ConfigEvent.orchestrator_fetch, ConfigEvent.save 9]) :=
  ⟨(init_node_config_resolution _).1 5 rfl,
    (init_node_config_resolution _).2 rfl 9 rfl rfl⟩

/-- C10: in `init_node`'s L1-genesis step, when no finalized block number
is supplied no L1 fetch occurs and `l1_genesis` is `None`; when one is
supplied, its block info is fetched and a fetch failure makes the step
(and hence `init_node`) return that error, while a successful fetch
yields `Some`; whenever the step succeeds, `l1_genesis` is `Some` exactly
when a finalized block number was supplied. -/
theorem init_node_l1_genesis {E : Type} (fb : Option Nat)
    (get_block : Nat → Except E L1BlockInfo) :
    (fb = none →
      resolve_l1_genesis fb get_block = (Except.ok none, false)) ∧
    (∀ b, fb = some b →
      (∀ e, get_block b = Except.error e →
        resolve_l1_genesis fb get_block = (Except.error e, true)) ∧
      (∀ info, get_block b = Except.ok info →
        resolve_l1_genesis fb get_block = (Except.ok (some info), true))) ∧
    (∀ r, (resolve_l1_genesis fb get_block).1 = Except.ok r →
      (r.isSome ↔ fb.isSome)) := by
  refine ⟨?_, ?_, ?_⟩
  · intro hnone
    rw [hnone]
    rfl
  · intro b hsome
    subst hsome
    constructor
    · intro e herr
      simp [resolve_l1_genesis, herr]
    · intro info hok
      simp [resolve_l1_genesis, hok]
  · intro r hok
    cases fb with
    | none =>
      simp only [resolve_l1_genesis, Except.ok.injEq] at hok
      subst hok
      simp
    | some b =>
      cases hgb : get_block b with
      | error e =>
        simp [resolve_l1_genesis, hgb] at hok
      | ok info =>
        simp only [resolve_l1_genesis, hgb, Except.ok.injEq] at hok
        subst hok
        simp

/-- C10 witness: concrete evaluations of the no-fetch, failing-fetch and
successful-fetch paths. -/
theorem init_node_l1_genesis_witness :
    resolve_l1_genesis (E := Unit) none (fun _ => Except.ok ⟨3, 4, 5⟩)
      = (Except.ok none, false) ∧
    resolve_l1_genesis (E := Unit) (some 2) (fun _ => Except.error ())
      = (Except.error (), true) ∧
    resolve_l1_genesis (E := Unit) (some 2) (fun _ => Except.ok ⟨3, 4, 5⟩)
      = (Except.ok (some ⟨3, 4, 5⟩), true) :=
  ⟨(init_node_l1_genesis none _).1 rfl,
    ((init_node_l1_genesis (some 2) _).2.1 2 rfl).1 () rfl,
    ((init_node_l1_genesis (some 2) _).2.1 2 rfl).2 ⟨3, 4, 5⟩ rfl⟩

end Sequencer
